import Mathlib

/-!
Verification of the host-based routing and redirect logic of the
bettergovph open-data-visualization web servers.

The repository contains two variants of the same handler family:
the full variant in altgovph_routes.rs (namespace Routes below) and the
standalone variant in src/main.rs (namespace Standalone below).
Requests are modelled by their host header, path and query string; the
template renderer (tera) is an external collaborator modelled as an
oracle that can fail.
-/

namespace OpenDataViz

/-- Substring test on lists: the first list occurs contiguously inside the
second one. Mirrors the byte-level substring search of the Rust
str::contains used on host strings. -/
def listIsInfixOf : List Char → List Char → Bool
  | [], _ => true
  | _ :: _, [] => false
  | p :: ps, a :: as => (List.isPrefixOf (p :: ps) (a :: as)) || listIsInfixOf (p :: ps) as

/-- Rust str::contains: pat occurs as a contiguous substring of s. -/
def strContains (s pat : String) : Bool :=
  listIsInfixOf pat.data s.data

/-- Rust str::ends_with. -/
def strEndsWith (s pat : String) : Bool :=
  List.isSuffixOf pat.data s.data

/-- Rust str::starts_with. -/
def strStartsWith (s pat : String) : Bool :=
  List.isPrefixOf pat.data s.data

/-- An incoming HTTP request as seen by the route handlers.
The host field models req.headers().get("host") followed by
HeaderValue::to_str(): the outer Option is absence of the header, the
inner Option is none when the header bytes are not valid UTF-8 (to_str
fails). The method and otherHeaders fields carry the rest of the request;
the routing code never inspects them. -/
structure Request where
  host : Option (Option String)
  path : String
  query : Option String
  method : String
  otherHeaders : List (String × String)
deriving DecidableEq

/-- Failure modes of the external tera template renderer: the template
file is missing, or loading and substitution fails. -/
inductive RenderError where
  | templateNotFound
  | renderFailed
deriving DecidableEq

/-- The response a handler produces: a 200 HTML page, a 308 permanent
redirect carrying a Location header, or a 500 produced by
ErrorInternalServerError from a renderer failure. -/
inductive HandlerResponse where
  | ok (body : String)
  | permanentRedirect (location : String)
  | internalServerError (e : RenderError)
deriving DecidableEq

/-- HTTP status code of a handler response. -/
def HandlerResponse.status : HandlerResponse → Nat
  | .ok _ => 200
  | .permanentRedirect _ => 308
  | .internalServerError _ => 500

/-- True exactly on redirect responses. -/
def HandlerResponse.isRedirect : HandlerResponse → Bool
  | .permanentRedirect _ => true
  | _ => false

/-- A tera rendering context: a finite map from string keys to string
values, represented as an association list with overwriting insert. -/
abbrev Ctx := List (String × String)

/-- Context.insert of tera: overwrites any earlier binding of the key. -/
def ctxInsert (context : Ctx) (k v : String) : Ctx :=
  (k, v) :: context.filter (fun p => p.1 != k)

/-- Sequence of context inserts, in order. -/
def ctxInsertAll (context : Ctx) (kvs : List (String × String)) : Ctx :=
  kvs.foldl (fun c kv => ctxInsert c kv.1 kv.2) context

/-- The external template renderer. The init field models
Tera::new("templates/**/*"), which can fail; render models
tera.render(name, context). -/
structure Renderer where
  init : Except RenderError Unit
  render : String → Ctx → Except RenderError String

/-- The rendering tail shared by every handler: build the tera instance,
render the chosen template, and map either failure to a 500 via
ErrorInternalServerError; on success produce the 200 HTML response. -/
def renderStep (R : Renderer) (template_name : String) (context : Ctx) : HandlerResponse :=
  match R.init with
  | .error e => .internalServerError e
  | .ok _ =>
    match R.render template_name context with
    | .error e => .internalServerError e
    | .ok rendered => .ok rendered

namespace Routes

/-- Function add_frontend_env_to_context of altgovph_routes.rs: inserts
the two frontend environment values. The Rust code iterates a HashMap
whose order is unspecified; the keys are distinct, so any order gives
the same map. -/
def add_frontend_env_to_context (context : Ctx) : Ctx :=
  ctxInsertAll context [("SITE_URL", "https://altgovph.site"), ("SITE_NAME", "BetterGovPH")]

/-- Function should_use_mobile_template of altgovph_routes.rs. -/
def should_use_mobile_template (req : Request) : Bool :=
  match req.host with
  | some (some host_str) =>
    strContains host_str "m.kenchlightyear.com" ||
    strContains host_str "mobile.kenchlightyear.com"
  | _ => false

/-- Function check_mobile_redirect_enhanced of altgovph_routes.rs: both
the matching and the non-matching branch return None. -/
def check_mobile_redirect_enhanced (req : Request) : Option HandlerResponse :=
  match req.host with
  | some (some host_str) =>
    if strContains host_str "m.kenchlightyear.com" ||
       strContains host_str "mobile.kenchlightyear.com" then
      none
    else
      none
  | _ => none

/-- Function check_production_domain_block of altgovph_routes.rs: on the
legacy production host and an allow-listed path, build a permanent
redirect to the canonical domain, preserving the query string. -/
def check_production_domain_block (req : Request) : Option HandlerResponse :=
  match req.host with
  | some (some host_str) =>
    if host_str = "kenchlightyear.com" ∨ host_str = "www.kenchlightyear.com" then
      let path := req.path
      if path = "/budget" ∨ path = "/flood" ∨ path = "/alt" ∨ path = "/dime" ∨
         path = "/budget-flood-correlation" ∨ path = "/flood-dime-correlation" then
        let query_string :=
          match req.query with
          | some query => "?" ++ query
          | none => ""
        let redirect_url := "https://altgovph.site" ++ path ++ query_string
        some (.permanentRedirect redirect_url)
      else
        none
    else
      none
  | _ => none

/-- Context built by the altgovph_home handler. -/
def altgovph_home_context : Ctx :=
  ctxInsertAll (add_frontend_env_to_context [])
    [("title", "BetterGovPH"), ("company_name", "BetterGovPH"), ("platform", "BetterGovPH"),
     ("SITE_NAME", "BetterGovPH"), ("SITE_URL", "https://altgovph.site"),
     ("og_title", "BetterGovPH"),
     ("og_description", "Promoting Data Transparency and Open Government in the Philippines"),
     ("og_url", "https://altgovph.site/"), ("og_image", "/static/images/gov_logo.png")]

/-- Context built by the budget handler. -/
def budget_context : Ctx :=
  ctxInsertAll (add_frontend_env_to_context [])
    [("title", "Budget Analysis - BetterGovPH"), ("company_name", "BetterGovPH"),
     ("platform", "BetterGovPH"), ("SITE_NAME", "BetterGovPH"),
     ("SITE_URL", "https://altgovph.site"),
     ("og_title", "Budget Analysis - BetterGovPH"),
     ("og_description", "Government Data Analysis Platform for Budget and Flood Control Projects"),
     ("og_url", "https://altgovph.site/"), ("og_image", "/static/images/gov_logo.png")]

/-- Context built by the flood handler. -/
def flood_context : Ctx :=
  ctxInsertAll (add_frontend_env_to_context [])
    [("title", "Flood Control Projects - BetterGovPH"), ("company_name", "BetterGovPH"),
     ("platform", "BetterGovPH"), ("SITE_NAME", "BetterGovPH"),
     ("SITE_URL", "https://altgovph.site"),
     ("og_title", "Flood Control Projects - BetterGovPH"),
     ("og_description", "Government Data Analysis Platform for Flood Control Infrastructure Projects"),
     ("og_url", "https://altgovph.site/"), ("og_image", "/static/images/gov_logo.png")]

/-- Context built by the dime handler. -/
def dime_context : Ctx :=
  ctxInsertAll (add_frontend_env_to_context [])
    [("title", "DIME Infrastructure Projects - BetterGovPH"), ("company_name", "BetterGovPH"),
     ("platform", "BetterGovPH"), ("SITE_NAME", "BetterGovPH"),
     ("SITE_URL", "https://altgovph.site"),
     ("og_title", "DIME Infrastructure Projects - BetterGovPH"),
     ("og_description", "Department of Infrastructure and Mega-Projects Execution - Infrastructure Projects Tracker"),
     ("og_url", "https://altgovph.site/"), ("og_image", "/static/images/gov_logo.png")]

/-- Context built by the nep handler. -/
def nep_context : Ctx :=
  ctxInsertAll (add_frontend_env_to_context [])
    [("title", "NEP Analysis - BetterGovPH"), ("company_name", "BetterGovPH"),
     ("platform", "BetterGovPH"), ("SITE_NAME", "BetterGovPH"),
     ("SITE_URL", "https://altgovph.site"),
     ("og_title", "NEP Analysis - BetterGovPH"),
     ("og_description", "Government Data Analysis Platform for National Expenditure Program Projects"),
     ("og_url", "https://altgovph.site/nep"), ("og_image", "/static/images/gov_logo.png")]

/-- Context built by the budget_nep_correlation handler. -/
def budget_nep_correlation_context : Ctx :=
  ctxInsertAll (add_frontend_env_to_context [])
    [("title", "NEP-Budget Correlation Analysis - BetterGovPH"), ("company_name", "BetterGovPH"),
     ("platform", "BetterGovPH"), ("SITE_NAME", "BetterGovPH"),
     ("SITE_URL", "https://altgovph.site"),
     ("og_url", "https://altgovph.site/budget-nep-correlation"),
     ("og_image", "/static/images/gov_logo.png")]

/-- Context built by the budget_flood_correlation handler (no title key). -/
def budget_flood_correlation_context : Ctx :=
  ctxInsertAll (add_frontend_env_to_context [])
    [("company_name", "BetterGovPH"), ("platform", "BetterGovPH"),
     ("SITE_NAME", "BetterGovPH"), ("SITE_URL", "https://altgovph.site"),
     ("og_url", "https://altgovph.site/budget-flood-correlation"),
     ("og_image", "/static/images/gov_logo.png")]

/-- Context built by the flood_dime_correlation handler. -/
def flood_dime_correlation_context : Ctx :=
  ctxInsertAll (add_frontend_env_to_context [])
    [("title", "Flood-DIME Correlation Analysis - BetterGovPH"), ("company_name", "BetterGovPH"),
     ("platform", "BetterGovPH"), ("SITE_NAME", "BetterGovPH"),
     ("SITE_URL", "https://altgovph.site"),
     ("og_url", "https://altgovph.site/flood-dime-correlation"),
     ("og_image", "/static/images/gov_logo.png")]

/-- Handler altgovph_home of altgovph_routes.rs: mobile redirect check,
then template choice by host, then rendering. Note that this handler
does not call check_production_domain_block. -/
def altgovph_home (R : Renderer) (req : Request) : HandlerResponse :=
  match check_mobile_redirect_enhanced req with
  | some redirect => redirect
  | none =>
    let template_name :=
      if should_use_mobile_template req then "mobile/altgovph_home.html"
      else "altgovph_home.html"
    renderStep R template_name altgovph_home_context

/-- Handler budget of altgovph_routes.rs. -/
def budget (R : Renderer) (req : Request) : HandlerResponse :=
  match check_mobile_redirect_enhanced req with
  | some redirect => redirect
  | none =>
    match check_production_domain_block req with
    | some block_response => block_response
    | none =>
      let template_name :=
        if should_use_mobile_template req then "mobile/budget.html" else "budget.html"
      renderStep R template_name budget_context

/-- Handler flood of altgovph_routes.rs. -/
def flood (R : Renderer) (req : Request) : HandlerResponse :=
  match check_mobile_redirect_enhanced req with
  | some redirect => redirect
  | none =>
    match check_production_domain_block req with
    | some block_response => block_response
    | none =>
      let template_name :=
        if should_use_mobile_template req then "mobile/flood.html" else "flood.html"
      renderStep R template_name flood_context

/-- Handler dime of altgovph_routes.rs. -/
def dime (R : Renderer) (req : Request) : HandlerResponse :=
  match check_mobile_redirect_enhanced req with
  | some redirect => redirect
  | none =>
    match check_production_domain_block req with
    | some block_response => block_response
    | none =>
      let template_name :=
        if should_use_mobile_template req then "mobile/dime.html" else "dime.html"
      renderStep R template_name dime_context

/-- Handler nep of altgovph_routes.rs. -/
def nep (R : Renderer) (req : Request) : HandlerResponse :=
  match check_mobile_redirect_enhanced req with
  | some redirect => redirect
  | none =>
    match check_production_domain_block req with
    | some block_response => block_response
    | none =>
      let template_name :=
        if should_use_mobile_template req then "mobile/nep.html" else "nep.html"
      renderStep R template_name nep_context

/-- Handler budget_nep_correlation of altgovph_routes.rs. -/
def budget_nep_correlation (R : Renderer) (req : Request) : HandlerResponse :=
  match check_mobile_redirect_enhanced req with
  | some redirect => redirect
  | none =>
    match check_production_domain_block req with
    | some block_response => block_response
    | none =>
      let template_name :=
        if should_use_mobile_template req then "mobile/budget_nep_correlation.html"
        else "budget_nep_correlation.html"
      renderStep R template_name budget_nep_correlation_context

/-- Handler budget_flood_correlation of altgovph_routes.rs: unlike the
other handlers it performs no mobile template selection and always
renders its base template. -/
def budget_flood_correlation (R : Renderer) (req : Request) : HandlerResponse :=
  match check_mobile_redirect_enhanced req with
  | some redirect => redirect
  | none =>
    match check_production_domain_block req with
    | some block_response => block_response
    | none =>
      renderStep R "budget_flood_correlation.html" budget_flood_correlation_context

/-- Handler flood_dime_correlation of altgovph_routes.rs: no mobile
template selection, always the base template. -/
def flood_dime_correlation (R : Renderer) (req : Request) : HandlerResponse :=
  match check_mobile_redirect_enhanced req with
  | some redirect => redirect
  | none =>
    match check_production_domain_block req with
    | some block_response => block_response
    | none =>
      renderStep R "flood_dime_correlation.html" flood_dime_correlation_context

end Routes

namespace Standalone

/-- Function should_use_mobile_template of src/main.rs: disabled for the
standalone application, always false. -/
def should_use_mobile_template (_req : Request) : Bool :=
  false

/-- Function check_mobile_redirect_enhanced of src/main.rs: disabled,
always None. -/
def check_mobile_redirect_enhanced (_req : Request) : Option HandlerResponse :=
  none

/-- Function check_production_domain_block of src/main.rs: disabled,
always None. -/
def check_production_domain_block (_req : Request) : Option HandlerResponse :=
  none

/-- Function add_frontend_env_to_context of src/main.rs. -/
def add_frontend_env_to_context (context : Ctx) : Ctx :=
  ctxInsertAll context
    [("SITE_URL", "https://altgovph.site"), ("SITE_NAME", "BetterGovPH Data Visualizations")]

/-- The per-handler context of src/main.rs: every handler inserts the
same five keys, with its own title. -/
def pageContext (title : String) : Ctx :=
  ctxInsertAll (add_frontend_env_to_context [])
    [("title", title), ("company_name", "BetterGovPH"), ("platform", "BetterGovPH"),
     ("SITE_NAME", "BetterGovPH Data Visualizations"), ("SITE_URL", "https://altgovph.site")]

/-- Handler altgovph_home of src/main.rs: render the home template, no
checks of any kind. -/
def altgovph_home (R : Renderer) (_req : Request) : HandlerResponse :=
  renderStep R "visualizations_home.html" (pageContext "BetterGovPH Data Visualizations")

/-- Handler budget of src/main.rs. -/
def budget (R : Renderer) (_req : Request) : HandlerResponse :=
  renderStep R "budget.html" (pageContext "Budget Analysis - BetterGovPH")

/-- Handler flood of src/main.rs. -/
def flood (R : Renderer) (_req : Request) : HandlerResponse :=
  renderStep R "flood.html" (pageContext "Flood Control Projects - BetterGovPH")

/-- Handler dime of src/main.rs. -/
def dime (R : Renderer) (_req : Request) : HandlerResponse :=
  renderStep R "dime.html" (pageContext "DIME Infrastructure Projects - BetterGovPH")

/-- Handler nep of src/main.rs. -/
def nep (R : Renderer) (_req : Request) : HandlerResponse :=
  renderStep R "nep.html" (pageContext "NEP Analysis - BetterGovPH")

/-- Handler map of src/main.rs. -/
def map (R : Renderer) (_req : Request) : HandlerResponse :=
  renderStep R "map.html" (pageContext "Interactive Map - BetterGovPH")

/-- Handler about of src/main.rs. -/
def about (R : Renderer) (_req : Request) : HandlerResponse :=
  renderStep R "about.html" (pageContext "About - BetterGovPH")

/-- Handler budget_nep_correlation of src/main.rs. -/
def budget_nep_correlation (R : Renderer) (_req : Request) : HandlerResponse :=
  renderStep R "budget_nep_correlation.html" (pageContext "Budget-NEP Correlation - BetterGovPH")

/-- Handler budget_flood_correlation of src/main.rs. -/
def budget_flood_correlation (R : Renderer) (_req : Request) : HandlerResponse :=
  renderStep R "budget_flood_correlation.html" (pageContext "Budget-Flood Correlation - BetterGovPH")

/-- Handler flood_dime_correlation of src/main.rs. -/
def flood_dime_correlation (R : Renderer) (_req : Request) : HandlerResponse :=
  renderStep R "flood_dime_correlation.html" (pageContext "Flood-DIME Correlation - BetterGovPH")

end Standalone

/-- The fixed allow-list of legacy paths subject to the production
domain block. -/
def production_block_paths : List String :=
  ["/budget", "/flood", "/alt", "/dime", "/budget-flood-correlation", "/flood-dime-correlation"]

/-- The query suffix appended to a redirect target: a question mark plus
the query string when one is present, empty otherwise. -/
def querySuffix (req : Request) : String :=
  match req.query with
  | some query => "?" ++ query
  | none => ""

/-- A renderer that always succeeds with a fixed page body. -/
def okRenderer : Renderer :=
  { init := .ok (), render := fun _ _ => .ok "page" }

/-- A renderer that echoes the requested template name as the body, used
to observe which template a handler selects. -/
def probeRenderer : Renderer :=
  { init := .ok (), render := fun template_name _ => .ok template_name }

/-- A renderer whose render call always fails with a missing template. -/
def errRenderer : Renderer :=
  { init := .ok (), render := fun _ _ => .error .templateNotFound }

/-- A renderer whose initialization fails. -/
def badInitRenderer : Renderer :=
  { init := .error .renderFailed, render := fun _ _ => .ok "page" }

/-- Builds a GET request with no extra headers from host, path, query. -/
def reqOf (host : Option (Option String)) (path : String) (query : Option String) : Request :=
  { host := host, path := path, query := query, method := "GET", otherHeaders := [] }

/-- The request GET /budget on the legacy production host, no query. -/
def reqLegacyBudget : Request :=
  reqOf (some (some "kenchlightyear.com")) "/budget" none

/-- The request GET /budget?year=2024 on the legacy production host. -/
def reqLegacyBudgetQ : Request :=
  reqOf (some (some "kenchlightyear.com")) "/budget" (some "year=2024")

/-- The request GET /alt on the legacy production host. -/
def reqAltLegacy : Request :=
  reqOf (some (some "kenchlightyear.com")) "/alt" none

/-- The request GET /budget on the mobile subdomain. -/
def reqMobile : Request :=
  reqOf (some (some "m.kenchlightyear.com")) "/budget" none

/-- The request GET /budget?a=1 on an unrelated host. -/
def reqOther : Request :=
  reqOf (some (some "example.com")) "/budget" (some "a=1")

/-- The request GET /flood with no host header at all. -/
def reqNoHost : Request :=
  reqOf none "/flood" none

/-- The request GET /budget-flood-correlation on the mobile subdomain. -/
def reqMobileBfc : Request :=
  reqOf (some (some "m.kenchlightyear.com")) "/budget-flood-correlation" none

/-- A request identical to reqLegacyBudget in host, path and query, but
with a different method and extra headers. -/
def reqLegacyBudgetPost : Request :=
  { reqLegacyBudget with method := "POST", otherHeaders := [("x-requested-with", "test")] }

/-- The routing decision of the budget handler is a redirect: there is a
location such that the handler answers with that permanent redirect for
every renderer, so no template is ever rendered. -/
def RedirectDecision (req : Request) : Prop :=
  ∃ loc, ∀ R : Renderer, Routes.budget R req = .permanentRedirect loc

/-- The routing decision of the budget handler is a render: there is a
template name such that, for every renderer, the handler hands exactly
that template and the budget context to the rendering step. -/
def RenderDecision (req : Request) : Prop :=
  ∃ template_name, ∀ R : Renderer,
    Routes.budget R req = renderStep R template_name Routes.budget_context

theorem mobileCheckNone (req : Request) : Routes.check_mobile_redirect_enhanced req = none := by
  unfold Routes.check_mobile_redirect_enhanced
  rcases req.host with _ | (_ | s) <;> simp

theorem renderStep_not_redirect (R : Renderer) (n : String) (c : Ctx) :
    (renderStep R n c).isRedirect = false := by
  unfold renderStep
  cases hini : R.init with
  | error e => rfl
  | ok u =>
    cases hren : R.render n c with
    | error e => rfl
    | ok s => rfl

theorem renderStep_status_500_of_fail (R : Renderer) (n : String) (c : Ctx) (e : RenderError)
    (h : R.init = Except.error e ∨ ∀ a b, R.render a b = Except.error e) :
    (renderStep R n c).status = 500 := by
  unfold renderStep
  rcases h with h | h
  · rw [h]
    rfl
  · cases hini : R.init with
    | error e2 => rfl
    | ok u =>
      rw [h n c]
      rfl

theorem marker_not_legacy (s : String)
    (h : (strContains s "m.kenchlightyear.com" ||
          strContains s "mobile.kenchlightyear.com") = true) :
    ¬(s = "kenchlightyear.com" ∨ s = "www.kenchlightyear.com") := by
  rintro (rfl | rfl) <;> revert h <;> decide

theorem block_none_of_not_legacy (req : Request)
    (h : ∀ s, req.host = some (some s) →
      ¬(s = "kenchlightyear.com" ∨ s = "www.kenchlightyear.com")) :
    Routes.check_production_domain_block req = none := by
  unfold Routes.check_production_domain_block
  cases hh : req.host with
  | none => rfl
  | some v =>
    cases v with
    | none => rfl
    | some s =>
      have hns := h s hh
      simp [hns]

theorem block_characterize (req : Request) :
    Routes.check_production_domain_block req =
      match req.host with
      | some (some s) =>
        if s = "kenchlightyear.com" ∨ s = "www.kenchlightyear.com" then
          if req.path ∈ production_block_paths then
            some (HandlerResponse.permanentRedirect
              ("https://altgovph.site" ++ req.path ++ querySuffix req))
          else none
        else none
      | _ => none := by
  unfold Routes.check_production_domain_block
  rcases req.host with _ | (_ | s) <;> simp [production_block_paths, querySuffix]

theorem block_shape (req : Request) (resp : HandlerResponse)
    (h : Routes.check_production_domain_block req = some resp) :
    ∃ loc, resp = HandlerResponse.permanentRedirect loc := by
  rw [block_characterize] at h
  rcases hh : req.host with _ | (_ | s) <;> simp only [hh] at h
  · exact Option.noConfusion h
  · exact Option.noConfusion h
  · by_cases h1 : s = "kenchlightyear.com" ∨ s = "www.kenchlightyear.com"
    · rw [if_pos h1] at h
      by_cases h2 : req.path ∈ production_block_paths
      · rw [if_pos h2] at h
        exact ⟨_, (Option.some.inj h).symm⟩
      · rw [if_neg h2] at h
        exact Option.noConfusion h
    · rw [if_neg h1] at h
      exact Option.noConfusion h

theorem strEndsWith_append (a b : String) : strEndsWith (a ++ b) b = true := by
  unfold strEndsWith
  rw [String.data_append, List.isSuffixOf_iff_suffix]
  exact List.suffix_append a.data b.data

theorem append_empty_eq (s : String) : s ++ "" = s :=
  String.append_empty s

theorem mem_block_paths_cases (p : String) (h : p ∈ production_block_paths) :
    p = "/budget" ∨ p = "/flood" ∨ p = "/alt" ∨ p = "/dime" ∨
    p = "/budget-flood-correlation" ∨ p = "/flood-dime-correlation" := by
  simpa [production_block_paths] using h

theorem altgovph_home_eq (R : Renderer) (req : Request) :
    Routes.altgovph_home R req =
      renderStep R
        (if Routes.should_use_mobile_template req then "mobile/altgovph_home.html"
         else "altgovph_home.html")
        Routes.altgovph_home_context := by
  unfold Routes.altgovph_home
  rw [mobileCheckNone]

theorem budget_eq (R : Renderer) (req : Request) :
    Routes.budget R req =
      match Routes.check_production_domain_block req with
      | some block_response => block_response
      | none =>
        renderStep R
          (if Routes.should_use_mobile_template req then "mobile/budget.html" else "budget.html")
          Routes.budget_context := by
  unfold Routes.budget
  rw [mobileCheckNone]

theorem flood_eq (R : Renderer) (req : Request) :
    Routes.flood R req =
      match Routes.check_production_domain_block req with
      | some block_response => block_response
      | none =>
        renderStep R
          (if Routes.should_use_mobile_template req then "mobile/flood.html" else "flood.html")
          Routes.flood_context := by
  unfold Routes.flood
  rw [mobileCheckNone]

theorem dime_eq (R : Renderer) (req : Request) :
    Routes.dime R req =
      match Routes.check_production_domain_block req with
      | some block_response => block_response
      | none =>
        renderStep R
          (if Routes.should_use_mobile_template req then "mobile/dime.html" else "dime.html")
          Routes.dime_context := by
  unfold Routes.dime
  rw [mobileCheckNone]

theorem nep_eq (R : Renderer) (req : Request) :
    Routes.nep R req =
      match Routes.check_production_domain_block req with
      | some block_response => block_response
      | none =>
        renderStep R
          (if Routes.should_use_mobile_template req then "mobile/nep.html" else "nep.html")
          Routes.nep_context := by
  unfold Routes.nep
  rw [mobileCheckNone]

theorem budget_nep_correlation_eq (R : Renderer) (req : Request) :
    Routes.budget_nep_correlation R req =
      match Routes.check_production_domain_block req with
      | some block_response => block_response
      | none =>
        renderStep R
          (if Routes.should_use_mobile_template req then "mobile/budget_nep_correlation.html"
           else "budget_nep_correlation.html")
          Routes.budget_nep_correlation_context := by
  unfold Routes.budget_nep_correlation
  rw [mobileCheckNone]

theorem budget_flood_correlation_eq (R : Renderer) (req : Request) :
    Routes.budget_flood_correlation R req =
      match Routes.check_production_domain_block req with
      | some block_response => block_response
      | none =>
        renderStep R "budget_flood_correlation.html" Routes.budget_flood_correlation_context := by
  unfold Routes.budget_flood_correlation
  rw [mobileCheckNone]

theorem flood_dime_correlation_eq (R : Renderer) (req : Request) :
    Routes.flood_dime_correlation R req =
      match Routes.check_production_domain_block req with
      | some block_response => block_response
      | none =>
        renderStep R "flood_dime_correlation.html" Routes.flood_dime_correlation_context := by
  unfold Routes.flood_dime_correlation
  rw [mobileCheckNone]

/-- C7: the mobile-redirect check returns None for every request, whether
or not the host contains the mobile-subdomain marker, so it never
contributes a redirect to the routing decision. -/
theorem c7_mobile_redirect_is_noop :
    ∀ req : Request, Routes.check_mobile_redirect_enhanced req = none := by
  intro req
  exact mobileCheckNone req

/-- C1 counterexample: the claim fails on the path /alt of the
allow-list. The handler registered for /alt is altgovph_home, which never
invokes check_production_domain_block, so on the legacy production host
the request to /alt is rendered with status 200 instead of being answered
with the claimed 308 redirect. -/
theorem c1_counterexample :
    Routes.altgovph_home okRenderer reqAltLegacy = HandlerResponse.ok "page" ∧
    (Routes.altgovph_home okRenderer reqAltLegacy).status ≠ 308 := by
  decide

/-- C1 amended: on the legacy production host, check_production_domain_block
answers the 308 permanent redirect to the canonical domain exactly for
the allow-listed paths, and the handlers that invoke it return that
redirect; the /alt handler altgovph_home however never redirects. -/
theorem c1_production_block_redirects (req : Request) (s : String)
    (hhost : req.host = some (some s))
    (hs : s = "kenchlightyear.com" ∨ s = "www.kenchlightyear.com") :
    (req.path ∈ production_block_paths →
      Routes.check_production_domain_block req =
        some (HandlerResponse.permanentRedirect
          ("https://altgovph.site" ++ req.path ++ querySuffix req)) ∧
      (HandlerResponse.permanentRedirect
        ("https://altgovph.site" ++ req.path ++ querySuffix req)).status = 308 ∧
      ∀ R : Renderer,
        Routes.budget R req = HandlerResponse.permanentRedirect
          ("https://altgovph.site" ++ req.path ++ querySuffix req) ∧
        Routes.flood R req = HandlerResponse.permanentRedirect
          ("https://altgovph.site" ++ req.path ++ querySuffix req) ∧
        Routes.dime R req = HandlerResponse.permanentRedirect
          ("https://altgovph.site" ++ req.path ++ querySuffix req) ∧
        Routes.budget_flood_correlation R req = HandlerResponse.permanentRedirect
          ("https://altgovph.site" ++ req.path ++ querySuffix req) ∧
        Routes.flood_dime_correlation R req = HandlerResponse.permanentRedirect
          ("https://altgovph.site" ++ req.path ++ querySuffix req)) ∧
    (req.path ∉ production_block_paths →
      Routes.check_production_domain_block req = none) ∧
    (∀ R : Renderer, (Routes.altgovph_home R req).isRedirect = false) := by
  have hc := block_characterize req
  rw [hhost] at hc
  refine ⟨?_, ?_, ?_⟩
  · intro hmem
    simp only [if_pos hs, if_pos hmem] at hc
    refine ⟨hc, rfl, ?_⟩
    intro R
    refine ⟨?_, ?_, ?_, ?_, ?_⟩
    · rw [budget_eq, hc]
    · rw [flood_eq, hc]
    · rw [dime_eq, hc]
    · rw [budget_flood_correlation_eq, hc]
    · rw [flood_dime_correlation_eq, hc]
  · intro hnm
    simp only [if_pos hs, if_neg hnm] at hc
    exact hc
  · intro R
    rw [altgovph_home_eq]
    exact renderStep_not_redirect R _ _

/-- C1 witness: concrete instance of the amended claim at GET /budget on
the legacy host. -/
theorem c1_witness :
    Routes.check_production_domain_block reqLegacyBudget =
      some (HandlerResponse.permanentRedirect "https://altgovph.site/budget") ∧
    ∀ R : Renderer, Routes.budget R reqLegacyBudget =
      HandlerResponse.permanentRedirect "https://altgovph.site/budget" := by
  have h :=
    (c1_production_block_redirects reqLegacyBudget "kenchlightyear.com" rfl
      (Or.inl rfl)).1 (by decide)
  exact ⟨h.1, fun R => (h.2.2 R).1⟩

/-- C2: on the legacy host with an allow-listed path, the redirect target
ends with a question mark followed by the query string verbatim when one
is present, and is exactly the canonical domain plus the path, with no
trailing question mark, when there is none. -/
theorem c2_query_preservation (req : Request) (s : String)
    (hhost : req.host = some (some s))
    (hs : s = "kenchlightyear.com" ∨ s = "www.kenchlightyear.com")
    (hmem : req.path ∈ production_block_paths) :
    (∀ q, req.query = some q →
      Routes.check_production_domain_block req =
        some (HandlerResponse.permanentRedirect
          ("https://altgovph.site" ++ req.path ++ ("?" ++ q))) ∧
      strEndsWith ("https://altgovph.site" ++ req.path ++ ("?" ++ q)) ("?" ++ q) = true) ∧
    (req.query = none →
      Routes.check_production_domain_block req =
        some (HandlerResponse.permanentRedirect ("https://altgovph.site" ++ req.path)) ∧
      strEndsWith ("https://altgovph.site" ++ req.path) "?" = false) := by
  have hc := block_characterize req
  rw [hhost] at hc
  simp only [if_pos hs, if_pos hmem] at hc
  constructor
  · intro q hq
    have hsuffix : querySuffix req = "?" ++ q := by
      unfold querySuffix
      rw [hq]
    rw [hsuffix] at hc
    exact ⟨hc, strEndsWith_append _ _⟩
  · intro hq
    have hsuffix : querySuffix req = "" := by
      unfold querySuffix
      rw [hq]
    constructor
    · rw [hc, hsuffix]
      have : "https://altgovph.site" ++ req.path ++ "" = "https://altgovph.site" ++ req.path :=
        append_empty_eq _
      rw [this]
    · have hp := mem_block_paths_cases req.path hmem
      rcases hp with hp | hp | hp | hp | hp | hp <;> rw [hp] <;> decide

/-- C2 witness: GET /budget?year=2024 and GET /budget on the legacy host. -/
theorem c2_witness :
    Routes.check_production_domain_block reqLegacyBudgetQ =
      some (HandlerResponse.permanentRedirect
        ("https://altgovph.site" ++ "/budget" ++ ("?" ++ "year=2024"))) ∧
    strEndsWith ("https://altgovph.site" ++ "/budget" ++ ("?" ++ "year=2024")) "?year=2024" = true ∧
    Routes.check_production_domain_block reqLegacyBudget =
      some (HandlerResponse.permanentRedirect ("https://altgovph.site" ++ "/budget")) ∧
    strEndsWith ("https://altgovph.site" ++ "/budget") "?" = false := by
  have hq :=
    (c2_query_preservation reqLegacyBudgetQ "kenchlightyear.com" rfl (Or.inl rfl)
      (by decide)).1 "year=2024" rfl
  have hn :=
    (c2_query_preservation reqLegacyBudget "kenchlightyear.com" rfl (Or.inl rfl)
      (by decide)).2 rfl
  exact ⟨hq.1, hq.2, hn.1, hn.2⟩

/-- C3 counterexample: the claim fails for the budget_flood_correlation
handler. On a host carrying the mobile-subdomain marker it still selects
its plain base template, as the probe renderer (which echoes the selected
template name) shows; the selected name does not start with mobile/. -/
theorem c3_counterexample :
    Routes.should_use_mobile_template reqMobileBfc = true ∧
    Routes.budget_flood_correlation probeRenderer reqMobileBfc =
      HandlerResponse.ok "budget_flood_correlation.html" ∧
    strStartsWith "budget_flood_correlation.html" "mobile/" = false := by
  decide

/-- C3 amended: for every host containing the mobile-subdomain marker,
the six handlers that perform template selection (altgovph_home, budget,
flood, dime, nep, budget_nep_correlation) select the mobile-prefixed
template variant; the handlers budget_flood_correlation and
flood_dime_correlation always render their base template. -/
theorem c3_mobile_template_selection (req : Request)
    (h : Routes.should_use_mobile_template req = true) :
    ∀ R : Renderer,
      Routes.altgovph_home R req =
        renderStep R "mobile/altgovph_home.html" Routes.altgovph_home_context ∧
      Routes.budget R req = renderStep R "mobile/budget.html" Routes.budget_context ∧
      Routes.flood R req = renderStep R "mobile/flood.html" Routes.flood_context ∧
      Routes.dime R req = renderStep R "mobile/dime.html" Routes.dime_context ∧
      Routes.nep R req = renderStep R "mobile/nep.html" Routes.nep_context ∧
      Routes.budget_nep_correlation R req =
        renderStep R "mobile/budget_nep_correlation.html" Routes.budget_nep_correlation_context ∧
      Routes.budget_flood_correlation R req =
        renderStep R "budget_flood_correlation.html" Routes.budget_flood_correlation_context ∧
      Routes.flood_dime_correlation R req =
        renderStep R "flood_dime_correlation.html" Routes.flood_dime_correlation_context := by
  have hb : Routes.check_production_domain_block req = none := by
    apply block_none_of_not_legacy
    intro s hs
    unfold Routes.should_use_mobile_template at h
    simp only [hs] at h
    exact marker_not_legacy s h
  intro R
  refine ⟨?_, ?_, ?_, ?_, ?_, ?_, ?_, ?_⟩
  · rw [altgovph_home_eq, h]
    rfl
  · rw [budget_eq, hb, h]
    rfl
  · rw [flood_eq, hb, h]
    rfl
  · rw [dime_eq, hb, h]
    rfl
  · rw [nep_eq, hb, h]
    rfl
  · rw [budget_nep_correlation_eq, hb, h]
    rfl
  · rw [budget_flood_correlation_eq, hb]
  · rw [flood_dime_correlation_eq, hb]

/-- C3 witness: the budget handler on the mobile subdomain selects the
mobile budget template. -/
theorem c3_witness :
    Routes.budget okRenderer reqMobile =
      renderStep okRenderer "mobile/budget.html" Routes.budget_context := by
  exact (c3_mobile_template_selection reqMobile (by decide) okRenderer).2.1

/-- C4: a request whose host header is not exactly one of the two legacy
hostnames never produces a redirect: the production block yields none,
the mobile check yields none, and every route handler answers with a
non-redirect response, whatever the path, query string and renderer. -/
theorem c4_non_legacy_never_redirects (req : Request)
    (h : ∀ s, req.host = some (some s) →
      ¬(s = "kenchlightyear.com" ∨ s = "www.kenchlightyear.com")) :
    Routes.check_production_domain_block req = none ∧
    Routes.check_mobile_redirect_enhanced req = none ∧
    ∀ R : Renderer,
      (Routes.altgovph_home R req).isRedirect = false ∧
      (Routes.budget R req).isRedirect = false ∧
      (Routes.flood R req).isRedirect = false ∧
      (Routes.dime R req).isRedirect = false ∧
      (Routes.nep R req).isRedirect = false ∧
      (Routes.budget_nep_correlation R req).isRedirect = false ∧
      (Routes.budget_flood_correlation R req).isRedirect = false ∧
      (Routes.flood_dime_correlation R req).isRedirect = false := by
  have hb := block_none_of_not_legacy req h
  refine ⟨hb, mobileCheckNone req, ?_⟩
  intro R
  refine ⟨?_, ?_, ?_, ?_, ?_, ?_, ?_, ?_⟩
  · rw [altgovph_home_eq]
    exact renderStep_not_redirect R _ _
  · rw [budget_eq, hb]
    exact renderStep_not_redirect R _ _
  · rw [flood_eq, hb]
    exact renderStep_not_redirect R _ _
  · rw [dime_eq, hb]
    exact renderStep_not_redirect R _ _
  · rw [nep_eq, hb]
    exact renderStep_not_redirect R _ _
  · rw [budget_nep_correlation_eq, hb]
    exact renderStep_not_redirect R _ _
  · rw [budget_flood_correlation_eq, hb]
    exact renderStep_not_redirect R _ _
  · rw [flood_dime_correlation_eq, hb]
    exact renderStep_not_redirect R _ _

/-- C4 witness: GET /budget?a=1 with host example.com produces no
redirect anywhere. -/
theorem c4_witness :
    Routes.check_production_domain_block reqOther = none ∧
    (Routes.budget okRenderer reqOther).isRedirect = false := by
  have hyp : ∀ s, reqOther.host = some (some s) →
      ¬(s = "kenchlightyear.com" ∨ s = "www.kenchlightyear.com") := by
    intro s hs
    have : "example.com" = s := by
      injection (Option.some.inj hs)
    rw [← this]
    decide
  have h := c4_non_legacy_never_redirects reqOther hyp
  exact ⟨h.1, (h.2.2 okRenderer).2.1⟩

/-- C5: when the host header is absent or its bytes are not valid UTF-8,
every host-based predicate is false: no mobile template, no mobile
redirect, no production block, and every handler falls through to
rendering its plain non-mobile template. -/
theorem c5_invalid_host_falls_through (req : Request)
    (h : req.host = none ∨ req.host = some none) :
    Routes.should_use_mobile_template req = false ∧
    Routes.check_mobile_redirect_enhanced req = none ∧
    Routes.check_production_domain_block req = none ∧
    ∀ R : Renderer,
      Routes.altgovph_home R req =
        renderStep R "altgovph_home.html" Routes.altgovph_home_context ∧
      Routes.budget R req = renderStep R "budget.html" Routes.budget_context ∧
      Routes.flood R req = renderStep R "flood.html" Routes.flood_context ∧
      Routes.dime R req = renderStep R "dime.html" Routes.dime_context ∧
      Routes.nep R req = renderStep R "nep.html" Routes.nep_context ∧
      Routes.budget_nep_correlation R req =
        renderStep R "budget_nep_correlation.html" Routes.budget_nep_correlation_context ∧
      Routes.budget_flood_correlation R req =
        renderStep R "budget_flood_correlation.html" Routes.budget_flood_correlation_context ∧
      Routes.flood_dime_correlation R req =
        renderStep R "flood_dime_correlation.html" Routes.flood_dime_correlation_context := by
  have hm : Routes.should_use_mobile_template req = false := by
    rcases h with h | h <;> · unfold Routes.should_use_mobile_template; simp only [h]
  have hb : Routes.check_production_domain_block req = none := by
    apply block_none_of_not_legacy
    intro s hs
    rcases h with h | h
    · rw [h] at hs
      exact Option.noConfusion hs
    · rw [h] at hs
      exact Option.noConfusion (Option.some.inj hs)
  refine ⟨hm, mobileCheckNone req, hb, ?_⟩
  intro R
  refine ⟨?_, ?_, ?_, ?_, ?_, ?_, ?_, ?_⟩
  · rw [altgovph_home_eq, hm]
    rfl
  · rw [budget_eq, hb, hm]
    rfl
  · rw [flood_eq, hb, hm]
    rfl
  · rw [dime_eq, hb, hm]
    rfl
  · rw [nep_eq, hb, hm]
    rfl
  · rw [budget_nep_correlation_eq, hb, hm]
    rfl
  · rw [budget_flood_correlation_eq, hb]
  · rw [flood_dime_correlation_eq, hb]

/-- C5 witness: GET /flood with no host header renders the plain flood
template and triggers no host-based predicate. -/
theorem c5_witness :
    Routes.should_use_mobile_template reqNoHost = false ∧
    Routes.check_production_domain_block reqNoHost = none ∧
    Routes.flood okRenderer reqNoHost =
      renderStep okRenderer "flood.html" Routes.flood_context := by
  have h := c5_invalid_host_falls_through reqNoHost (Or.inl rfl)
  exact ⟨h.1, h.2.2.1, (h.2.2.2 okRenderer).2.2.1⟩

/-- C6: classification is a pure function of host, path and query: two
requests agreeing on those three components (whatever their method and
remaining headers) receive identical predicate values and identical
handler responses, so classifying the same request twice yields the
same decision. -/
theorem c6_classification_deterministic (r1 r2 : Request)
    (h1 : r1.host = r2.host) (h2 : r1.path = r2.path) (h3 : r1.query = r2.query) :
    Routes.should_use_mobile_template r1 = Routes.should_use_mobile_template r2 ∧
    Routes.check_mobile_redirect_enhanced r1 = Routes.check_mobile_redirect_enhanced r2 ∧
    Routes.check_production_domain_block r1 = Routes.check_production_domain_block r2 ∧
    ∀ R : Renderer,
      Routes.altgovph_home R r1 = Routes.altgovph_home R r2 ∧
      Routes.budget R r1 = Routes.budget R r2 ∧
      Routes.flood R r1 = Routes.flood R r2 ∧
      Routes.dime R r1 = Routes.dime R r2 ∧
      Routes.nep R r1 = Routes.nep R r2 ∧
      Routes.budget_nep_correlation R r1 = Routes.budget_nep_correlation R r2 ∧
      Routes.budget_flood_correlation R r1 = Routes.budget_flood_correlation R r2 ∧
      Routes.flood_dime_correlation R r1 = Routes.flood_dime_correlation R r2 := by
  have hm : Routes.should_use_mobile_template r1 = Routes.should_use_mobile_template r2 := by
    unfold Routes.should_use_mobile_template
    rw [h1]
  have hb : Routes.check_production_domain_block r1 =
      Routes.check_production_domain_block r2 := by
    unfold Routes.check_production_domain_block
    rw [h1, h2, h3]
  refine ⟨hm, by rw [mobileCheckNone, mobileCheckNone], hb, ?_⟩
  intro R
  refine ⟨?_, ?_, ?_, ?_, ?_, ?_, ?_, ?_⟩
  · rw [altgovph_home_eq, altgovph_home_eq, hm]
  · rw [budget_eq, budget_eq, hm, hb]
  · rw [flood_eq, flood_eq, hm, hb]
  · rw [dime_eq, dime_eq, hm, hb]
  · rw [nep_eq, nep_eq, hm, hb]
  · rw [budget_nep_correlation_eq, budget_nep_correlation_eq, hm, hb]
  · rw [budget_flood_correlation_eq, budget_flood_correlation_eq, hb]
  · rw [flood_dime_correlation_eq, flood_dime_correlation_eq, hb]

/-- C6 witness: a GET and a POST request with the same host, path and
query but different extra headers receive the same budget response. -/
theorem c6_witness :
    Routes.budget okRenderer reqLegacyBudget = Routes.budget okRenderer reqLegacyBudgetPost := by
  exact ((c6_classification_deterministic reqLegacyBudget reqLegacyBudgetPost rfl rfl
    rfl).2.2.2 okRenderer).2.1

/-- C8: when the renderer fails, either at initialization or on every
render call, a handler whose production block does not fire answers with
the 500 internal-server-error status; the handler performs the single
render attempt and maps its failure directly to the error response. -/
theorem c8_render_error_yields_500 (R : Renderer) (req : Request) (e : RenderError)
    (hb : Routes.check_production_domain_block req = none)
    (hfail : R.init = Except.error e ∨ ∀ a b, R.render a b = Except.error e) :
    (Routes.altgovph_home R req).status = 500 ∧
    (Routes.budget R req).status = 500 ∧
    (Routes.flood R req).status = 500 ∧
    (Routes.dime R req).status = 500 ∧
    (Routes.nep R req).status = 500 ∧
    (Routes.budget_nep_correlation R req).status = 500 ∧
    (Routes.budget_flood_correlation R req).status = 500 ∧
    (Routes.flood_dime_correlation R req).status = 500 ∧
    (Standalone.budget R req).status = 500 := by
  refine ⟨?_, ?_, ?_, ?_, ?_, ?_, ?_, ?_, ?_⟩
  · rw [altgovph_home_eq]
    exact renderStep_status_500_of_fail R _ _ e hfail
  · rw [budget_eq, hb]
    exact renderStep_status_500_of_fail R _ _ e hfail
  · rw [flood_eq, hb]
    exact renderStep_status_500_of_fail R _ _ e hfail
  · rw [dime_eq, hb]
    exact renderStep_status_500_of_fail R _ _ e hfail
  · rw [nep_eq, hb]
    exact renderStep_status_500_of_fail R _ _ e hfail
  · rw [budget_nep_correlation_eq, hb]
    exact renderStep_status_500_of_fail R _ _ e hfail
  · rw [budget_flood_correlation_eq, hb]
    exact renderStep_status_500_of_fail R _ _ e hfail
  · rw [flood_dime_correlation_eq, hb]
    exact renderStep_status_500_of_fail R _ _ e hfail
  · exact renderStep_status_500_of_fail R _ _ e hfail

/-- C8 witness: a failing render call and a failing initialization both
turn the budget page into a 500 for a non-legacy request. -/
theorem c8_witness :
    (Routes.budget errRenderer reqOther).status = 500 ∧
    (Routes.budget badInitRenderer reqOther).status = 500 := by
  constructor
  · exact (c8_render_error_yields_500 errRenderer reqOther RenderError.templateNotFound
      (by decide) (Or.inr (fun a b => rfl))).2.1
  · exact (c8_render_error_yields_500 badInitRenderer reqOther RenderError.renderFailed
      (by decide) (Or.inl rfl)).2.1

/-- C9: every request receives exactly one routing decision from the
budget handler, a redirect or a render, never both and never neither;
and whenever the production block fires, its redirect is returned for
every renderer, so the redirect takes precedence over any rendering. -/
theorem c9_exactly_one_decision (req : Request) :
    ((RedirectDecision req ∧ ¬ RenderDecision req) ∨
     (RenderDecision req ∧ ¬ RedirectDecision req)) ∧
    ∀ resp, Routes.check_production_domain_block req = some resp →
      ∀ R : Renderer, Routes.budget R req = resp := by
  have hprec : ∀ resp, Routes.check_production_domain_block req = some resp →
      ∀ R : Renderer, Routes.budget R req = resp := by
    intro resp hr R
    rw [budget_eq, hr]
  refine ⟨?_, hprec⟩
  cases hb : Routes.check_production_domain_block req with
  | some resp =>
    obtain ⟨loc, rfl⟩ := block_shape req resp hb
    left
    constructor
    · exact ⟨loc, fun R => hprec _ hb R⟩
    · rintro ⟨tname, hall⟩
      have h1 := hall okRenderer
      have h2 := hprec _ hb okRenderer
      rw [h2] at h1
      have h3 : renderStep okRenderer tname Routes.budget_context =
          HandlerResponse.ok "page" := rfl
      rw [h3] at h1
      exact HandlerResponse.noConfusion h1
  | none =>
    right
    constructor
    · refine ⟨if Routes.should_use_mobile_template req then "mobile/budget.html"
        else "budget.html", ?_⟩
      intro R
      rw [budget_eq, hb]
    · rintro ⟨loc, hall⟩
      have h1 := hall okRenderer
      have h2 : Routes.budget okRenderer req = HandlerResponse.ok "page" := by
        rw [budget_eq, hb]
        rfl
      rw [h2] at h1
      exact HandlerResponse.noConfusion h1

/-- C9 witness: the production block fires on GET /budget at the legacy
host and its redirect is exactly what the handler returns. -/
theorem c9_witness :
    Routes.budget okRenderer reqLegacyBudget =
      HandlerResponse.permanentRedirect "https://altgovph.site/budget" := by
  exact (c9_exactly_one_decision reqLegacyBudget).2
    (HandlerResponse.permanentRedirect "https://altgovph.site/budget") (by decide) okRenderer

/-- C10: in the standalone main.rs variant all three host predicates are
disabled, and every handler renders its fixed non-mobile template for
every request, never producing a redirect, whatever the host header,
path or query string. -/
theorem c10_standalone_always_renders (req : Request) :
    Standalone.should_use_mobile_template req = false ∧
    Standalone.check_mobile_redirect_enhanced req = none ∧
    Standalone.check_production_domain_block req = none ∧
    ∀ R : Renderer,
      Standalone.altgovph_home R req =
        renderStep R "visualizations_home.html"
          (Standalone.pageContext "BetterGovPH Data Visualizations") ∧
      Standalone.budget R req =
        renderStep R "budget.html" (Standalone.pageContext "Budget Analysis - BetterGovPH") ∧
      Standalone.flood R req =
        renderStep R "flood.html" (Standalone.pageContext "Flood Control Projects - BetterGovPH") ∧
      Standalone.dime R req =
        renderStep R "dime.html"
          (Standalone.pageContext "DIME Infrastructure Projects - BetterGovPH") ∧
      Standalone.nep R req =
        renderStep R "nep.html" (Standalone.pageContext "NEP Analysis - BetterGovPH") ∧
      Standalone.map R req =
        renderStep R "map.html" (Standalone.pageContext "Interactive Map - BetterGovPH") ∧
      Standalone.about R req =
        renderStep R "about.html" (Standalone.pageContext "About - BetterGovPH") ∧
      Standalone.budget_nep_correlation R req =
        renderStep R "budget_nep_correlation.html"
          (Standalone.pageContext "Budget-NEP Correlation - BetterGovPH") ∧
      Standalone.budget_flood_correlation R req =
        renderStep R "budget_flood_correlation.html"
          (Standalone.pageContext "Budget-Flood Correlation - BetterGovPH") ∧
      Standalone.flood_dime_correlation R req =
        renderStep R "flood_dime_correlation.html"
          (Standalone.pageContext "Flood-DIME Correlation - BetterGovPH") ∧
      (Standalone.altgovph_home R req).isRedirect = false ∧
      (Standalone.budget R req).isRedirect = false ∧
      (Standalone.flood R req).isRedirect = false ∧
      (Standalone.dime R req).isRedirect = false ∧
      (Standalone.nep R req).isRedirect = false ∧
      (Standalone.map R req).isRedirect = false ∧
      (Standalone.about R req).isRedirect = false ∧
      (Standalone.budget_nep_correlation R req).isRedirect = false ∧
      (Standalone.budget_flood_correlation R req).isRedirect = false ∧
      (Standalone.flood_dime_correlation R req).isRedirect = false := by
  refine ⟨rfl, rfl, rfl, ?_⟩
  intro R
  exact ⟨rfl, rfl, rfl, rfl, rfl, rfl, rfl, rfl, rfl, rfl,
    renderStep_not_redirect R _ _, renderStep_not_redirect R _ _,
    renderStep_not_redirect R _ _, renderStep_not_redirect R _ _,
    renderStep_not_redirect R _ _, renderStep_not_redirect R _ _,
    renderStep_not_redirect R _ _, renderStep_not_redirect R _ _,
    renderStep_not_redirect R _ _, renderStep_not_redirect R _ _⟩

end OpenDataViz
